import Mathlib

/-!
Verification of the Ducobox connectivity-board Home Assistant integration
(`custom_components/ducobox-connectivity-board/sensor.py`).

The module is embedded shallowly:

* Python JSON-like values (the parsed API responses) are the inductive
  type `PyVal`; Python numbers (int and float alike) are modelled as
  exact rationals `ℚ`, so `/`, `*` and `round` are exact arithmetic.
* Python dicts are association lists with distinct keys in insertion
  order; `dict.get` and item assignment are `dictGet` / `dictSet`.
* Code that can raise returns `Except String α`; the `String` is the
  exception rendered as text.
* `round` with one argument is Python 3 banker's rounding, `pyRound`.

Every definition is translated from the source file; doc comments name
the Python function a definition embeds.
-/

/-- A Python value as it appears in the parsed JSON of the Ducobox API:
`None`, a number (int or float, modelled exactly as a rational), a
string, a list, or a string-keyed dict (association list, insertion
order preserved, keys distinct). -/
inductive PyVal where
  | none : PyVal
  | num : ℚ → PyVal
  | str : String → PyVal
  | list : List PyVal → PyVal
  | dict : List (String × PyVal) → PyVal

mutual

/-- Python `==` on `PyVal` (structural; numbers compare as rationals,
which matches Python's cross-type numeric equality). -/
def PyVal.beq : PyVal → PyVal → Bool
  | .none, .none => true
  | .num a, .num b => a == b
  | .str a, .str b => a == b
  | .list a, .list b => PyVal.beqList a b
  | .dict a, .dict b => PyVal.beqDict a b
  | _, _ => false

/-- Python `==` on lists of values, elementwise. -/
def PyVal.beqList : List PyVal → List PyVal → Bool
  | [], [] => true
  | x :: xs, y :: ys => PyVal.beq x y && PyVal.beqList xs ys
  | _, _ => false

/-- Python `==` on dicts, as ordered association lists. -/
def PyVal.beqDict : List (String × PyVal) → List (String × PyVal) → Bool
  | [], [] => true
  | (k1, v1) :: xs, (k2, v2) :: ys => k1 == k2 && PyVal.beq v1 v2 && PyVal.beqDict xs ys
  | _, _ => false

end

/-- `isinstance(data, dict)`. -/
def PyVal.isDict : PyVal → Bool
  | .dict _ => true
  | _ => false

/-- `d.get(k)` as an `Option`: the value bound to the first (and, keys
being distinct, only) occurrence of `k`, or `none` when `k` is absent. -/
def dictGetOpt (d : List (String × PyVal)) (k : String) : Option PyVal :=
  (d.find? (fun p => p.1 == k)).map Prod.snd

/-- `d.get(k)`: like `dictGetOpt` but a missing key yields Python
`None`, exactly as `dict.get` with no default does. -/
def dictGet (d : List (String × PyVal)) (k : String) : PyVal :=
  (dictGetOpt d k).getD PyVal.none

/-- `d[k] = v`: replace the binding of `k` in place when `k` is present
(keeping its position, as Python dicts do), else append it. -/
def dictSet (d : List (String × PyVal)) (k : String) (v : PyVal) : List (String × PyVal) :=
  if d.any (fun p => p.1 == k) then
    d.map (fun p => if p.1 == k then (k, v) else p)
  else d ++ [(k, v)]

/-- `safe_get(data, *keys)` from sensor.py:

    for key in keys:
        if isinstance(data, dict):
            data = data.get(key)
        else:
            return None
    return data

The loop with its early `return None` becomes structural recursion on
the key list; the function is total, so it never raises. -/
def safe_get (data : PyVal) (keys : List String) : PyVal :=
  match keys with
  | [] => data
  | key :: rest =>
    match data with
    | PyVal.dict d => safe_get (dictGet d key) rest
    | _ => PyVal.none

/-- Python 3 `round(q)` with one argument: round half to even
(banker's rounding), returning an integer. -/
def pyRound (q : ℚ) : ℤ :=
  if q - (⌊q⌋ : ℚ) < 1/2 then ⌊q⌋
  else if 1/2 < q - (⌊q⌋ : ℚ) then ⌊q⌋ + 1
  else if 2 ∣ ⌊q⌋ then ⌊q⌋ else ⌊q⌋ + 1

/-- `_process_node_temperature(value)`: `value` when it is not `None`,
else `None`; never raises. -/
def _process_node_temperature : PyVal → PyVal
  | PyVal.none => PyVal.none
  | v => v

/-- `_process_node_humidity(value)`: `value` when it is not `None`,
else `None`; never raises. -/
def _process_node_humidity : PyVal → PyVal
  | PyVal.none => PyVal.none
  | v => v

/-- `_process_node_co2(value)`: `value` when it is not `None`, else
`None`; never raises. -/
def _process_node_co2 : PyVal → PyVal
  | PyVal.none => PyVal.none
  | v => v

/-- `_process_node_iaq(value)`: `value` when it is not `None`, else
`None`; never raises. -/
def _process_node_iaq : PyVal → PyVal
  | PyVal.none => PyVal.none
  | v => v

/-- `_process_temperature(value)`: `None` maps to `None`, a number `v`
to `v / 10.0`; on any other value the division raises `TypeError`. -/
def _process_temperature : PyVal → Except String PyVal
  | PyVal.none => Except.ok PyVal.none
  | PyVal.num v => Except.ok (PyVal.num (v / 10))
  | _ => Except.error "TypeError: unsupported operand types for /"

/-- `_process_speed(value)`: `value` when it is not `None`, else
`None`; never raises. -/
def _process_speed : PyVal → PyVal
  | PyVal.none => PyVal.none
  | v => v

/-- `_process_pressure(value)`: `None` maps to `None`, a number `v` to
`float(v) * .1` (on a number, `float` is the identity in this exact
model); a non-numeric value makes `float` raise.  `float` applied to a
numeric string, which would parse in Python, is not modelled: no claim
and no caller feeds the function a string. -/
def _process_pressure : PyVal → Except String PyVal
  | PyVal.none => Except.ok PyVal.none
  | PyVal.num v => Except.ok (PyVal.num (v * (1/10)))
  | _ => Except.error "TypeError: float() argument must be a number"

/-- `_process_rssi(value)`: `value` when it is not `None`, else
`None`; never raises. -/
def _process_rssi : PyVal → PyVal
  | PyVal.none => PyVal.none
  | v => v

/-- `_process_uptime(value)`: `value` when it is not `None`, else
`None`; never raises. -/
def _process_uptime : PyVal → PyVal
  | PyVal.none => PyVal.none
  | v => v

/-- `_process_timefilterremain(value)`: `value` when it is not `None`,
else `None`; never raises. -/
def _process_timefilterremain : PyVal → PyVal
  | PyVal.none => PyVal.none
  | v => v

/-- `_process_bypass_position(value)`: `None` maps to `None`, a number
`v` to `round((v / 255) * 100)`; on any other value the division
raises `TypeError`. -/
def _process_bypass_position : PyVal → Except String PyVal
  | PyVal.none => Except.ok PyVal.none
  | PyVal.num v => Except.ok (PyVal.num ((pyRound (v / 255 * 100) : ℤ) : ℚ))
  | _ => Except.error "TypeError: unsupported operand types for /"

/-- `try: return f(x) except: return None` — the guard that both
`native_value` properties wrap around their accessor call. -/
def exceptToNone (r : Except String PyVal) : PyVal :=
  match r with
  | Except.ok v => v
  | Except.error _ => PyVal.none

/-- `UnitOfTemperature.CELSIUS`. -/
def CELSIUS : String := "°C"

/-- `PERCENTAGE`. -/
def PERCENTAGE : String := "%"

/-- `CONCENTRATION_PARTS_PER_MILLION`. -/
def CONCENTRATION_PARTS_PER_MILLION : String := "ppm"

/-- `UnitOfTime.SECONDS`. -/
def SECONDS : String := "s"

/-- `SensorDeviceClass.TEMPERATURE`. -/
def DEVICE_CLASS_TEMPERATURE : String := "temperature"

/-- `SensorDeviceClass.HUMIDITY`. -/
def DEVICE_CLASS_HUMIDITY : String := "humidity"

/-- `SensorDeviceClass.CO2`. -/
def DEVICE_CLASS_CO2 : String := "carbon_dioxide"

/-- `DucoboxSensorEntityDescription`: the fields of the dataclass this
module reads (display metadata and the stored accessor `value_fn`).
The accessor returns `Except`: applying it can raise in Python. -/
structure DucoboxSensorEntityDescription where
  key : String
  name : String
  native_unit_of_measurement : Option String := Option.none
  device_class : Option String := Option.none
  value_fn : PyVal → Except String PyVal

/-- `DucoboxNodeSensorEntityDescription`: as above plus the node
fields `sensor_key` and `node_type`. -/
structure DucoboxNodeSensorEntityDescription where
  key : String
  name : String
  native_unit_of_measurement : Option String := Option.none
  device_class : Option String := Option.none
  value_fn : PyVal → Except String PyVal
  sensor_key : String
  node_type : String

/-- `SENSORS[0]` (the `TempOda` Outdoor Temperature entry), kept as a
sample box-sensor description. -/
def TempOdaDescription : DucoboxSensorEntityDescription :=
  { key := "TempOda"
    name := "Outdoor Temperature"
    native_unit_of_measurement := some CELSIUS
    device_class := some DEVICE_CLASS_TEMPERATURE
    value_fn := fun data => _process_temperature
      (safe_get data ["Ventilation", "Sensor", "TempOda", "Val"]) }

/-- `NODE_SENSORS`: the per-node-type sensor table, in source order.
Every `value_fn` below is total (a `safe_get` chain, possibly through
an identity `_process_node_*` function), hence wrapped in `Except.ok`. -/
def NODE_SENSORS : List (String × List DucoboxNodeSensorEntityDescription) :=
  [("BOX",
    [{ key := "Mode", name := "Ventilation Mode"
       value_fn := fun node => Except.ok (safe_get node ["Ventilation", "Mode"])
       sensor_key := "Mode", node_type := "BOX" },
     { key := "State", name := "Ventilation State"
       value_fn := fun node => Except.ok (safe_get node ["Ventilation", "State"])
       sensor_key := "State", node_type := "BOX" },
     { key := "FlowLvlTgt", name := "Flow Level Target"
       native_unit_of_measurement := some PERCENTAGE
       value_fn := fun node => Except.ok (safe_get node ["Ventilation", "FlowLvlTgt"])
       sensor_key := "FlowLvlTgt", node_type := "BOX" },
     { key := "TimeStateRemain", name := "Time State Remaining"
       native_unit_of_measurement := some SECONDS
       value_fn := fun node => Except.ok (safe_get node ["Ventilation", "TimeStateRemain"])
       sensor_key := "TimeStateRemain", node_type := "BOX" },
     { key := "TimeStateEnd", name := "Time State End"
       native_unit_of_measurement := some SECONDS
       value_fn := fun node => Except.ok (safe_get node ["Ventilation", "TimeStateEnd"])
       sensor_key := "TimeStateEnd", node_type := "BOX" },
     { key := "Temp", name := "Temperature"
       native_unit_of_measurement := some CELSIUS
       device_class := some DEVICE_CLASS_TEMPERATURE
       value_fn := fun node => Except.ok (_process_node_temperature
         (safe_get node ["Sensor", "data", "Temp"]))
       sensor_key := "Temp", node_type := "BOX" },
     { key := "Rh", name := "Relative Humidity"
       native_unit_of_measurement := some PERCENTAGE
       device_class := some DEVICE_CLASS_HUMIDITY
       value_fn := fun node => Except.ok (_process_node_humidity
         (safe_get node ["Sensor", "data", "Rh"]))
       sensor_key := "Rh", node_type := "BOX" },
     { key := "IaqRh", name := "Humidity Air Quality"
       native_unit_of_measurement := some PERCENTAGE
       value_fn := fun node => Except.ok (_process_node_iaq
         (safe_get node ["Sensor", "data", "IaqRh"]))
       sensor_key := "IaqRh", node_type := "BOX" }]),
   ("UCCO2",
    [{ key := "Temp", name := "Temperature"
       native_unit_of_measurement := some CELSIUS
       device_class := some DEVICE_CLASS_TEMPERATURE
       value_fn := fun node => Except.ok (_process_node_temperature
         (safe_get node ["Sensor", "data", "Temp"]))
       sensor_key := "Temp", node_type := "UCCO2" },
     { key := "Co2", name := "CO₂"
       native_unit_of_measurement := some CONCENTRATION_PARTS_PER_MILLION
       device_class := some DEVICE_CLASS_CO2
       value_fn := fun node => Except.ok (_process_node_co2
         (safe_get node ["Sensor", "data", "Co2"]))
       sensor_key := "Co2", node_type := "UCCO2" },
     { key := "IaqCo2", name := "CO₂ Air Quality"
       native_unit_of_measurement := some PERCENTAGE
       value_fn := fun node => Except.ok (_process_node_iaq
         (safe_get node ["Sensor", "data", "IaqCo2"]))
       sensor_key := "IaqCo2", node_type := "UCCO2" }]),
   ("BSRH",
    [{ key := "Temp", name := "Temperature"
       native_unit_of_measurement := some CELSIUS
       device_class := some DEVICE_CLASS_TEMPERATURE
       value_fn := fun node => Except.ok (_process_node_temperature
         (safe_get node ["Sensor", "data", "Temp"]))
       sensor_key := "Temp", node_type := "BSRH" },
     { key := "Rh", name := "Relative Humidity"
       native_unit_of_measurement := some PERCENTAGE
       device_class := some DEVICE_CLASS_HUMIDITY
       value_fn := fun node => Except.ok (_process_node_humidity
         (safe_get node ["Sensor", "data", "Rh"]))
       sensor_key := "Rh", node_type := "BSRH" },
     { key := "IaqRh", name := "Humidity Air Quality"
       native_unit_of_measurement := some PERCENTAGE
       value_fn := fun node => Except.ok (_process_node_iaq
         (safe_get node ["Sensor", "data", "IaqRh"]))
       sensor_key := "IaqRh", node_type := "BSRH" }]),
   ("VLVRH",
    [{ key := "State", name := "Ventilation State"
       value_fn := fun node => Except.ok (safe_get node ["Ventilation", "State"])
       sensor_key := "State", node_type := "VLVRH" },
     { key := "TimeStateRemain", name := "Time State Remaining"
       native_unit_of_measurement := some SECONDS
       value_fn := fun node => Except.ok (safe_get node ["Ventilation", "TimeStateRemain"])
       sensor_key := "TimeStateRemain", node_type := "VLVRH" },
     { key := "TimeStateEnd", name := "Time State End"
       native_unit_of_measurement := some SECONDS
       value_fn := fun node => Except.ok (safe_get node ["Ventilation", "TimeStateEnd"])
       sensor_key := "TimeStateEnd", node_type := "VLVRH" },
     { key := "Mode", name := "Ventilation Mode"
       value_fn := fun node => Except.ok (safe_get node ["Ventilation", "Mode"])
       sensor_key := "Mode", node_type := "VLVRH" },
     { key := "FlowLvlTgt", name := "Flow Level Target"
       native_unit_of_measurement := some PERCENTAGE
       value_fn := fun node => Except.ok (safe_get node ["Ventilation", "FlowLvlTgt"])
       sensor_key := "FlowLvlTgt", node_type := "VLVRH" },
     { key := "IaqRh", name := "Humidity Air Quality"
       native_unit_of_measurement := some PERCENTAGE
       value_fn := fun node => Except.ok (_process_node_iaq
         (safe_get node ["Sensor", "data", "IaqRh"]))
       sensor_key := "IaqRh", node_type := "VLVRH" },
     { key := "Rh", name := "Relative Humidity"
       native_unit_of_measurement := some PERCENTAGE
       device_class := some DEVICE_CLASS_HUMIDITY
       value_fn := fun node => Except.ok (_process_node_iaq
         (safe_get node ["Sensor", "data", "Rh"]))
       sensor_key := "Rh", node_type := "VLVRH" },
     { key := "Temp", name := "Temperature"
       native_unit_of_measurement := some CELSIUS
       device_class := some DEVICE_CLASS_TEMPERATURE
       value_fn := fun node => Except.ok (_process_node_temperature
         (safe_get node ["Sensor", "data", "Temp"]))
       sensor_key := "Temp", node_type := "VLVRH" }]),
   ("VLVCO2",
    [{ key := "State", name := "Ventilation State"
       value_fn := fun node => Except.ok (safe_get node ["Ventilation", "State"])
       sensor_key := "State", node_type := "VLVCO2" },
     { key := "TimeStateRemain", name := "Time State Remaining"
       native_unit_of_measurement := some SECONDS
       value_fn := fun node => Except.ok (safe_get node ["Ventilation", "TimeStateRemain"])
       sensor_key := "TimeStateRemain", node_type := "VLVCO2" },
     { key := "TimeStateEnd", name := "Time State End"
       native_unit_of_measurement := some SECONDS
       value_fn := fun node => Except.ok (safe_get node ["Ventilation", "TimeStateEnd"])
       sensor_key := "TimeStateEnd", node_type := "VLVCO2" },
     { key := "Mode", name := "Ventilation Mode"
       value_fn := fun node => Except.ok (safe_get node ["Ventilation", "Mode"])
       sensor_key := "Mode", node_type := "VLVCO2" },
     { key := "FlowLvlTgt", name := "Flow Level Target"
       native_unit_of_measurement := some PERCENTAGE
       value_fn := fun node => Except.ok (safe_get node ["Ventilation", "FlowLvlTgt"])
       sensor_key := "FlowLvlTgt", node_type := "VLVCO2" },
     { key := "Co2", name := "CO₂"
       native_unit_of_measurement := some CONCENTRATION_PARTS_PER_MILLION
       device_class := some DEVICE_CLASS_CO2
       value_fn := fun node => Except.ok (_process_node_co2
         (safe_get node ["Sensor", "data", "Co2"]))
       sensor_key := "Co2", node_type := "VLVCO2" },
     { key := "IaqCo2", name := "CO₂ Air Quality"
       native_unit_of_measurement := some PERCENTAGE
       value_fn := fun node => Except.ok (_process_node_iaq
         (safe_get node ["Sensor", "data", "IaqCo2"]))
       sensor_key := "IaqCo2", node_type := "VLVCO2" },
     { key := "Temp", name := "Temperature"
       native_unit_of_measurement := some CELSIUS
       device_class := some DEVICE_CLASS_TEMPERATURE
       value_fn := fun node => Except.ok (_process_node_temperature
         (safe_get node ["Sensor", "data", "Temp"]))
       sensor_key := "Temp", node_type := "VLVCO2" }]),
   ("VLVCO2RH",
    [{ key := "State", name := "Ventilation State"
       value_fn := fun node => Except.ok (safe_get node ["Ventilation", "State"])
       sensor_key := "State", node_type := "VLVCO2RH" },
     { key := "TimeStateRemain", name := "Time State Remaining"
       native_unit_of_measurement := some SECONDS
       value_fn := fun node => Except.ok (safe_get node ["Ventilation", "TimeStateRemain"])
       sensor_key := "TimeStateRemain", node_type := "VLVCO2RH" },
     { key := "TimeStateEnd", name := "Time State End"
       native_unit_of_measurement := some SECONDS
       value_fn := fun node => Except.ok (safe_get node ["Ventilation", "TimeStateEnd"])
       sensor_key := "TimeStateEnd", node_type := "VLVCO2RH" },
     { key := "Mode", name := "Ventilation Mode"
       value_fn := fun node => Except.ok (safe_get node ["Ventilation", "Mode"])
       sensor_key := "Mode", node_type := "VLVCO2RH" },
     { key := "FlowLvlTgt", name := "Flow Level Target"
       native_unit_of_measurement := some PERCENTAGE
       value_fn := fun node => Except.ok (safe_get node ["Ventilation", "FlowLvlTgt"])
       sensor_key := "FlowLvlTgt", node_type := "VLVCO2RH" },
     { key := "Co2", name := "CO₂"
       native_unit_of_measurement := some CONCENTRATION_PARTS_PER_MILLION
       device_class := some DEVICE_CLASS_CO2
       value_fn := fun node => Except.ok (_process_node_co2
         (safe_get node ["Sensor", "data", "Co2"]))
       sensor_key := "Co2", node_type := "VLVCO2RH" },
     { key := "IaqCo2", name := "CO₂ Air Quality"
       native_unit_of_measurement := some PERCENTAGE
       value_fn := fun node => Except.ok (_process_node_iaq
         (safe_get node ["Sensor", "data", "IaqCo2"]))
       sensor_key := "IaqCo2", node_type := "VLVCO2RH" },
     { key := "Rh", name := "Relative Humidity"
       native_unit_of_measurement := some PERCENTAGE
       device_class := some DEVICE_CLASS_HUMIDITY
       value_fn := fun node => Except.ok (_process_node_iaq
         (safe_get node ["Sensor", "data", "Rh"]))
       sensor_key := "Rh", node_type := "VLVCO2RH" },
     { key := "IaqRh", name := "Humidity Air Quality"
       native_unit_of_measurement := some PERCENTAGE
       value_fn := fun node => Except.ok (_process_node_iaq
         (safe_get node ["Sensor", "data", "IaqRh"]))
       sensor_key := "IaqRh", node_type := "VLVCO2RH" },
     { key := "Temp", name := "Temperature"
       native_unit_of_measurement := some CELSIUS
       device_class := some DEVICE_CLASS_TEMPERATURE
       value_fn := fun node => Except.ok (_process_node_temperature
         (safe_get node ["Sensor", "data", "Temp"]))
       sensor_key := "Temp", node_type := "VLVCO2RH" }]),
   ("UCBAT",
    [{ key := "State", name := "Ventilation State"
       value_fn := fun node => Except.ok (safe_get node ["Ventilation", "State"])
       sensor_key := "State", node_type := "UCBAT" },
     { key := "TimeStateRemain", name := "Time State Remaining"
       native_unit_of_measurement := some SECONDS
       value_fn := fun node => Except.ok (safe_get node ["Ventilation", "TimeStateRemain"])
       sensor_key := "TimeStateRemain", node_type := "UCBAT" },
     { key := "TimeStateEnd", name := "Time State End"
       native_unit_of_measurement := some SECONDS
       value_fn := fun node => Except.ok (safe_get node ["Ventilation", "TimeStateEnd"])
       sensor_key := "TimeStateEnd", node_type := "UCBAT" },
     { key := "Mode", name := "Ventilation Mode"
       value_fn := fun node => Except.ok (safe_get node ["Ventilation", "Mode"])
       sensor_key := "Mode", node_type := "UCBAT" }])]

/-- `NODE_SENSORS.get(node_type, [])` — the lookup in
`async_setup_entry`, falling back to no sensors for an unknown type. -/
def NODE_SENSORS_get (node_type : String) : List DucoboxNodeSensorEntityDescription :=
  match NODE_SENSORS.find? (fun p => p.1 == node_type) with
  | some p => p.2
  | Option.none => []

/-- The object `duco_client.get_nodes()` returns: either falsy, or
truthy without a `Nodes` attribute, or truthy with a `Nodes` attribute
holding a list of node objects (each node's `.dict()` is a dict). -/
inductive NodesResponse where
  | falsy : NodesResponse
  | missingNodesField : NodesResponse
  | withNodes : List (List (String × PyVal)) → NodesResponse

/-- The external `DucoPy` client as `_fetch_data` observes it during
one update: what `get_info()` and `get_nodes()` each return, or the
exception either raises.  `get_info` yields the parsed `/info` JSON
dict or `None`. -/
structure DucoClient where
  get_info : Except String (Option (List (String × PyVal)))
  get_nodes : Except String NodesResponse

/-- `DucoboxCoordinator._fetch_data(self)`, with `self.duco_client` as
the argument (`none` models an uninitialized client).  The source's
`try`/`except` around the endpoint calls only logs and re-raises, which
is the identity on `Except`, so it does not appear. -/
def _fetch_data (duco_client : Option DucoClient) : Except String (List (String × PyVal)) :=
  match duco_client with
  | Option.none => Except.error "Duco client is not initialized"
  | some client =>
    (client.get_info).bind (fun info =>
      let data := match info with
        | Option.none => []
        | some d => d
      (client.get_nodes).bind (fun nodes_response =>
        match nodes_response with
        | NodesResponse.withNodes nodes =>
          Except.ok (dictSet data "Nodes" (PyVal.list (nodes.map PyVal.dict)))
        | _ => Except.ok (dictSet data "Nodes" (PyVal.list []))))

/-- What one call to `DucoboxCoordinator._async_update_data` produces:
the fetched mapping, or the raised `UpdateFailed` (its message and the
wrapped original exception, from `raise UpdateFailed(f"...: {e}") from e`). -/
inductive UpdateOutcome where
  | success : List (String × PyVal) → UpdateOutcome
  | updateFailed : String → String → UpdateOutcome

/-- `DucoboxCoordinator._async_update_data(self)`.  `attempts n` is the
outcome the `n`-th invocation of `self._fetch_data` inside this update
would produce; the method runs a single executor job, so it consumes
`attempts 0` once and never looks further. -/
def _async_update_data (attempts : ℕ → Except String (List (String × PyVal))) : UpdateOutcome :=
  match attempts 0 with
  | Except.ok d => UpdateOutcome.success d
  | Except.error e =>
    UpdateOutcome.updateFailed ("Failed to fetch data from Ducobox API: " ++ e) e

/-- The coordinator as the entities see it: its cached `data` (the last
mapping `_fetch_data` returned; an arbitrary `PyVal` here so that the
properties are stated for every cached value). -/
structure DucoboxCoordinator where
  data : PyVal

/-- A `DucoboxSensorEntity`: its stored description and coordinator. -/
structure DucoboxSensorEntity where
  entity_description : DucoboxSensorEntityDescription
  coordinator : DucoboxCoordinator

/-- The `native_value` property of `DucoboxSensorEntity`:

    try:
        return self.entity_description.value_fn(self.coordinator.data)
    except Exception:
        return None

Reading is state passing on the coordinator: the pair is the produced
value and the coordinator after the read (the accessors of this module
are pure projections, so the read leaves the cached data as it was). -/
def DucoboxSensorEntity.native_value (e : DucoboxSensorEntity) : PyVal × DucoboxCoordinator :=
  (exceptToNone (e.entity_description.value_fn e.coordinator.data), e.coordinator)

/-- A `DucoboxNodeSensorEntity`: description, coordinator and the
stored `self._node_id` (the value read from the node's `Node` field at
setup time). -/
structure DucoboxNodeSensorEntity where
  entity_description : DucoboxNodeSensorEntityDescription
  coordinator : DucoboxCoordinator
  _node_id : PyVal

/-- The `for node in nodes:` loop of `DucoboxNodeSensorEntity.native_value`:
return the guarded `value_fn` application on the first node whose
`Node` field equals `node_id`, `None` when none matches; a non-dict
element reached before a match makes `node.get` raise, outside the
`try`. -/
def nodeLoop (value_fn : PyVal → Except String PyVal) (node_id : PyVal) :
    List PyVal → Except String PyVal
  | [] => Except.ok PyVal.none
  | n :: rest =>
    match n with
    | PyVal.dict nd =>
      if PyVal.beq (dictGet nd "Node") node_id then
        Except.ok (exceptToNone (value_fn (PyVal.dict nd)))
      else nodeLoop value_fn node_id rest
    | _ => Except.error "AttributeError: object has no attribute get"

/-- The `native_value` property of `DucoboxNodeSensorEntity`:

    nodes = self.coordinator.data.get('Nodes', [])
    for node in nodes:
        if node.get('Node') == self._node_id:
            try:
                return self.entity_description.value_fn(node)
            except Exception:
                return None
    return None

`.get` on a non-dict cached value, or iterating a non-list `Nodes`
value, raises outside the `try` and surfaces as an error. -/
def DucoboxNodeSensorEntity.native_value (e : DucoboxNodeSensorEntity) : Except String PyVal :=
  match e.coordinator.data with
  | PyVal.dict d =>
    match (dictGetOpt d "Nodes").getD (PyVal.list []) with
    | PyVal.list nodes => nodeLoop e.entity_description.value_fn e._node_id nodes
    | _ => Except.error "TypeError: object is not iterable"
  | _ => Except.error "AttributeError: object has no attribute get"

/-- One step of the spec's reading of `safe_get` — "look up each key in
turn when every intermediate value is a dict, and None as soon as any
intermediate value is not a dict" — so that the early-return loop can
be compared with a plain left fold of this step. -/
def lookup_step (acc : PyVal) (key : String) : PyVal :=
  match acc with
  | PyVal.dict d => dictGet d key
  | _ => PyVal.none

/-- Placeholder description used only as the default of `List.getD`
when a theorem statement picks an entry out of `NODE_SENSORS`. -/
def defaultNodeSensorDescription : DucoboxNodeSensorEntityDescription :=
  { key := "", name := ""
    value_fn := fun _ => Except.ok PyVal.none
    sensor_key := "", node_type := "" }

/-- A concrete client for witnesses: `/info` returns a one-key dict,
`/nodes` one node. -/
def sampleClient : DucoClient :=
  { get_info := Except.ok (some [("General", PyVal.dict [])])
    get_nodes := Except.ok (NodesResponse.withNodes [[("Node", PyVal.num 1)]]) }

/-- A concrete box-sensor entity for witnesses: the `TempOda`
description over a cache holding `Ventilation.Sensor.TempOda.Val = 215`. -/
def sampleBoxEntity : DucoboxSensorEntity :=
  { entity_description := TempOdaDescription
    coordinator :=
      { data := PyVal.dict [("Ventilation", PyVal.dict [("Sensor", PyVal.dict
          [("TempOda", PyVal.dict [("Val", PyVal.num 215)])])])] } }

/-- One concrete node (id 1, ventilation mode AUTO) for witnesses. -/
def sampleNodes : List (List (String × PyVal)) :=
  [[("Node", PyVal.num 1), ("Ventilation", PyVal.dict [("Mode", PyVal.str "AUTO")])]]

/-- A concrete coordinator cache holding `sampleNodes` for witnesses. -/
def sampleData : List (String × PyVal) :=
  [("Nodes", PyVal.list (sampleNodes.map PyVal.dict))]

theorem lookup_step_foldl_none (ks : List String) :
    ks.foldl lookup_step PyVal.none = PyVal.none := by
  induction ks with
  | nil => rfl
  | cons k ks ih => exact ih

/-- C1: `safe_get` is a safe nested-dict accessor.  With zero keys it
returns `data` unchanged; on a dict it looks the next key up with
`dict.get` (a missing key yielding `None`) and continues; as soon as
the current value is not a dict it returns `None`; being a total Lean
function it never raises.  The last conjunct restates the whole loop
as a left fold of the per-key lookup step over the key sequence. -/
theorem safe_get_spec :
    (∀ data : PyVal, safe_get data [] = data) ∧
    (∀ (d : List (String × PyVal)) (k : String) (ks : List String),
      safe_get (PyVal.dict d) (k :: ks) = safe_get (dictGet d k) ks) ∧
    (∀ (data : PyVal) (k : String) (ks : List String),
      data.isDict = false → safe_get data (k :: ks) = PyVal.none) ∧
    (∀ (data : PyVal) (keys : List String),
      safe_get data keys = keys.foldl lookup_step data) := by
  refine ⟨fun _ => rfl, fun _ _ _ => rfl, ?_, ?_⟩
  · intro data k ks h
    cases data with
    | dict d => simp [PyVal.isDict] at h
    | none => rfl
    | num q => rfl
    | str s => rfl
    | list l => rfl
  · intro data keys
    induction keys generalizing data with
    | nil => rfl
    | cons k ks ih =>
      cases data with
      | dict d => simpa [safe_get, lookup_step] using ih (dictGet d k)
      | none => simp [safe_get, lookup_step, lookup_step_foldl_none]
      | num q => simp [safe_get, lookup_step, lookup_step_foldl_none]
      | str s => simp [safe_get, lookup_step, lookup_step_foldl_none]
      | list l => simp [safe_get, lookup_step, lookup_step_foldl_none]

/-- C1 witness: instantiating the hypothesis-bearing conjunct at a
number and one key. -/
theorem safe_get_spec_witness :
    PyVal.isDict (PyVal.num 3) = false ∧ safe_get (PyVal.num 3) ["a"] = PyVal.none :=
  ⟨rfl, safe_get_spec.2.2.1 (PyVal.num 3) "a" [] rfl⟩

/-- C2: `_process_temperature` divides every numeric input by 10 and
maps `None` to `None`. -/
theorem process_temperature_div10 :
    (∀ v : ℚ, _process_temperature (PyVal.num v) = Except.ok (PyVal.num (v / 10))) ∧
    _process_temperature PyVal.none = Except.ok PyVal.none :=
  ⟨fun _ => rfl, rfl⟩

/-- C4: `_process_pressure` multiplies every numeric input by 0.1,
which is the same as dividing it by 10, and maps `None` to `None`. -/
theorem process_pressure_mul_tenth :
    (∀ v : ℚ,
      _process_pressure (PyVal.num v) = Except.ok (PyVal.num (v * (1/10))) ∧
      _process_pressure (PyVal.num v) = Except.ok (PyVal.num (v / 10))) ∧
    _process_pressure PyVal.none = Except.ok PyVal.none := by
  refine ⟨fun v => ⟨rfl, ?_⟩, rfl⟩
  calc _process_pressure (PyVal.num v)
      = Except.ok (PyVal.num (v * (1/10))) := rfl
    _ = Except.ok (PyVal.num (v / 10)) := by rw [mul_one_div]

/-- C10: `_process_node_iaq` and `_process_node_humidity` are
extensionally equal, so the `Rh` (Relative Humidity) sensors of node
types `VLVRH` (entry 6 of its list) and `VLVCO2RH` (entry 7), though
wired to `_process_node_iaq`, compute on every input exactly the value
the `_process_node_humidity` wiring would give. -/
theorem rh_iaq_value_fn_equivalence :
    (∀ v : PyVal, _process_node_iaq v = _process_node_humidity v) ∧
    ((NODE_SENSORS_get "VLVRH").getD 6 defaultNodeSensorDescription).sensor_key = "Rh" ∧
    (∀ node : PyVal,
      ((NODE_SENSORS_get "VLVRH").getD 6 defaultNodeSensorDescription).value_fn node =
        Except.ok (_process_node_humidity (safe_get node ["Sensor", "data", "Rh"]))) ∧
    ((NODE_SENSORS_get "VLVCO2RH").getD 7 defaultNodeSensorDescription).sensor_key = "Rh" ∧
    (∀ node : PyVal,
      ((NODE_SENSORS_get "VLVCO2RH").getD 7 defaultNodeSensorDescription).value_fn node =
        Except.ok (_process_node_humidity (safe_get node ["Sensor", "data", "Rh"]))) := by
  have hext : ∀ v : PyVal, _process_node_iaq v = _process_node_humidity v := by
    intro v; cases v <;> rfl
  refine ⟨hext, rfl, ?_, rfl, ?_⟩
  · intro node
    show Except.ok (_process_node_iaq (safe_get node ["Sensor", "data", "Rh"])) = _
    rw [hext]
  · intro node
    show Except.ok (_process_node_iaq (safe_get node ["Sensor", "data", "Rh"])) = _
    rw [hext]

theorem floor_le_pyRound (q : ℚ) : ⌊q⌋ ≤ pyRound q := by
  unfold pyRound; split_ifs <;> omega

theorem pyRound_le_floor_add_one (q : ℚ) : pyRound q ≤ ⌊q⌋ + 1 := by
  unfold pyRound; split_ifs <;> omega

theorem pyRound_intCast (z : ℤ) : pyRound (z : ℚ) = z := by
  unfold pyRound
  rw [Int.floor_intCast, sub_self]
  norm_num

theorem pyRound_le_ceil (q : ℚ) : pyRound q ≤ ⌈q⌉ := by
  have hfc : ⌊q⌋ ≤ ⌈q⌉ := Int.floor_le_ceil q
  have hqc : q ≤ (⌈q⌉ : ℚ) := Int.le_ceil q
  unfold pyRound
  split_ifs with h1 h2 h3
  · exact hfc
  · have hlt : (⌊q⌋ : ℚ) < (⌈q⌉ : ℚ) := by linarith
    have : ⌊q⌋ < ⌈q⌉ := by exact_mod_cast hlt
    omega
  · exact hfc
  · have h12 : (1 : ℚ)/2 ≤ q - (⌊q⌋ : ℚ) := not_lt.mp h1
    have hlt : (⌊q⌋ : ℚ) < (⌈q⌉ : ℚ) := by linarith
    have : ⌊q⌋ < ⌈q⌉ := by exact_mod_cast hlt
    omega

theorem pyRound_mono {q r : ℚ} (h : q ≤ r) : pyRound q ≤ pyRound r := by
  rcases lt_or_eq_of_le (Int.floor_mono h) with hf | hf
  · have h1 := pyRound_le_floor_add_one q
    have h2 := floor_le_pyRound r
    omega
  · unfold pyRound
    rw [← hf]
    have hqr : q - (⌊q⌋ : ℚ) ≤ r - (⌊q⌋ : ℚ) := by linarith
    split_ifs <;> first | omega | (exfalso; linarith)

/-- C3: `_process_bypass_position` scales 0–255 to a percentage: a
numeric `v` maps to `round((v / 255) * 100)` (Python banker's
rounding), `0` to `0`, `255` to `100`; the scaled rounding is monotone
on `[0, 255]` and lands in `[0, 100]` there; `None` maps to `None`. -/
theorem process_bypass_position_scale :
    (∀ v : ℚ, _process_bypass_position (PyVal.num v) =
      Except.ok (PyVal.num ((pyRound (v / 255 * 100) : ℤ) : ℚ))) ∧
    _process_bypass_position (PyVal.num 0) = Except.ok (PyVal.num 0) ∧
    _process_bypass_position (PyVal.num 255) = Except.ok (PyVal.num 100) ∧
    (∀ v w : ℚ, 0 ≤ v → v ≤ w → w ≤ 255 →
      pyRound (v / 255 * 100) ≤ pyRound (w / 255 * 100)) ∧
    (∀ v : ℚ, 0 ≤ v → v ≤ 255 →
      0 ≤ pyRound (v / 255 * 100) ∧ pyRound (v / 255 * 100) ≤ 100) ∧
    _process_bypass_position PyVal.none = Except.ok PyVal.none := by
  refine ⟨fun v => rfl, ?_, ?_, ?_, ?_, rfl⟩
  · have h : (0 : ℚ) / 255 * 100 = ((0 : ℤ) : ℚ) := by norm_num
    calc _process_bypass_position (PyVal.num 0)
        = Except.ok (PyVal.num ((pyRound ((0:ℚ) / 255 * 100) : ℤ) : ℚ)) := rfl
      _ = Except.ok (PyVal.num ((pyRound (((0:ℤ) : ℚ)) : ℤ) : ℚ)) := by rw [h]
      _ = Except.ok (PyVal.num 0) := by rw [pyRound_intCast]; norm_num
  · have h : (255 : ℚ) / 255 * 100 = ((100 : ℤ) : ℚ) := by norm_num
    calc _process_bypass_position (PyVal.num 255)
        = Except.ok (PyVal.num ((pyRound ((255:ℚ) / 255 * 100) : ℤ) : ℚ)) := rfl
      _ = Except.ok (PyVal.num ((pyRound (((100:ℤ) : ℚ)) : ℤ) : ℚ)) := by rw [h]
      _ = Except.ok (PyVal.num 100) := by rw [pyRound_intCast]; norm_num
  · intro v w _ hvw _
    exact pyRound_mono (by linarith)
  · intro v h0 h255
    constructor
    · have h1 : (0:ℤ) ≤ ⌊v / 255 * 100⌋ := Int.floor_nonneg.mpr (by positivity)
      have h2 := floor_le_pyRound (v / 255 * 100)
      omega
    · have hle : v / 255 * 100 ≤ ((100 : ℤ) : ℚ) := by push_cast; linarith
      have hceil : ⌈v / 255 * 100⌉ ≤ (100 : ℤ) := Int.ceil_le.mpr hle
      have h2 := pyRound_le_ceil (v / 255 * 100)
      omega

/-- C3 witness: the monotonicity conjunct at `v = 10 ≤ w = 20` and the
range conjunct at `v = 51`. -/
theorem process_bypass_position_scale_witness :
    ((0:ℚ) ≤ 10 ∧ (10:ℚ) ≤ 20 ∧ (20:ℚ) ≤ 255 ∧
      pyRound ((10:ℚ) / 255 * 100) ≤ pyRound ((20:ℚ) / 255 * 100)) ∧
    ((0:ℚ) ≤ 51 ∧ (51:ℚ) ≤ 255 ∧
      0 ≤ pyRound ((51:ℚ) / 255 * 100) ∧ pyRound ((51:ℚ) / 255 * 100) ≤ 100) := by
  refine ⟨⟨by norm_num, by norm_num, by norm_num, ?_⟩, by norm_num, by norm_num, ?_⟩
  · exact process_bypass_position_scale.2.2.2.1 10 20 (by norm_num) (by norm_num) (by norm_num)
  · exact process_bypass_position_scale.2.2.2.2.1 51 (by norm_num) (by norm_num)

/-- C7: the per-node-type table is keyed by exactly the seven device
type codes, in source order, and the `NODE_SENSORS.get(node_type, [])`
lookup of `async_setup_entry` yields no sensors for any other type. -/
theorem node_sensors_keyed_by_seven_types :
    NODE_SENSORS.map Prod.fst =
      ["BOX", "UCCO2", "BSRH", "VLVRH", "VLVCO2", "VLVCO2RH", "UCBAT"] ∧
    (∀ t : String,
      t ∉ ["BOX", "UCCO2", "BSRH", "VLVRH", "VLVCO2", "VLVCO2RH", "UCBAT"] →
      NODE_SENSORS_get t = []) := by
  have hkeys : NODE_SENSORS.map Prod.fst =
      ["BOX", "UCCO2", "BSRH", "VLVRH", "VLVCO2", "VLVCO2RH", "UCBAT"] := rfl
  refine ⟨hkeys, ?_⟩
  intro t ht
  have hfind : NODE_SENSORS.find? (fun p => p.1 == t) = Option.none := by
    apply List.find?_eq_none.mpr
    intro p hp
    have hmem : p.1 ∈ NODE_SENSORS.map Prod.fst := List.mem_map_of_mem Prod.fst hp
    rw [hkeys] at hmem
    simp only [beq_iff_eq]
    exact fun hh => ht (hh ▸ hmem)
  unfold NODE_SENSORS_get
  rw [hfind]

/-- C7 witness: a type code outside the seven gets the empty sensor
list. -/
theorem node_sensors_keyed_by_seven_types_witness :
    "XYZ" ∉ ["BOX", "UCCO2", "BSRH", "VLVRH", "VLVCO2", "VLVCO2RH", "UCBAT"] ∧
    NODE_SENSORS_get "XYZ" = [] :=
  ⟨by decide, node_sensors_keyed_by_seven_types.2 "XYZ" (by decide)⟩

theorem find?_set_replace (k : String) (v : PyVal) :
    ∀ d : List (String × PyVal), d.any (fun p => p.1 == k) = true →
      (d.map (fun p => if p.1 == k then (k, v) else p)).find? (fun p => p.1 == k) =
        some (k, v) := by
  intro d
  induction d with
  | nil => intro h; simp at h
  | cons a tl ih =>
    intro h
    by_cases ha : (a.1 == k) = true
    · rw [List.map_cons, if_pos ha]
      simp only [List.find?, beq_self_eq_true]
    · have htl : tl.any (fun p => p.1 == k) = true := by
        rcases List.any_eq_true.mp h with ⟨p, hp, hc⟩
        rcases List.mem_cons.mp hp with rfl | hp2
        · exact absurd hc ha
        · exact List.any_eq_true.mpr ⟨p, hp2, hc⟩
      have hf : (a.1 == k) = false := by simpa using ha
      rw [List.map_cons, if_neg ha]
      simp only [List.find?, hf]
      exact ih htl

theorem find?_append_keyless (k : String) (v : PyVal) :
    ∀ d : List (String × PyVal), d.any (fun p => p.1 == k) = false →
      (d ++ [(k, v)]).find? (fun p => p.1 == k) = some (k, v) := by
  intro d
  induction d with
  | nil => intro _; simp [List.find?]
  | cons a tl ih =>
    intro h
    have hf : (a.1 == k) = false := by
      cases hb : (a.1 == k)
      · rfl
      · rw [List.any_cons, hb] at h; simp at h
    have htl : tl.any (fun p => p.1 == k) = false := by
      rw [List.any_cons, hf] at h; simpa using h
    simp [List.find?, hf, ih htl]

theorem dictGetOpt_dictSet (d : List (String × PyVal)) (k : String) (v : PyVal) :
    dictGetOpt (dictSet d k v) k = some v := by
  unfold dictGetOpt dictSet
  by_cases h : d.any (fun p => p.1 == k) = true
  · rw [if_pos h, find?_set_replace k v d h]
    rfl
  · have hf : d.any (fun p => p.1 == k) = false := by
      cases hb : d.any (fun p => p.1 == k)
      · rfl
      · exact absurd hb h
    rw [if_neg h, find?_append_keyless k v d hf]
    rfl

/-- C5: a successful `_fetch_data` returns the `/info` mapping (empty
when `/info` gave `None`) with `Nodes` set to the node-dict list of
the `/nodes` response, or to `[]` when that response is falsy or has
no `Nodes` attribute; consequently every mapping a successful fetch
returns binds the key `Nodes` to a list. -/
theorem fetch_data_merges :
    (∀ (client : DucoClient) (info : Option (List (String × PyVal)))
        (nodes : List (List (String × PyVal))),
      client.get_info = Except.ok info →
      client.get_nodes = Except.ok (NodesResponse.withNodes nodes) →
      _fetch_data (some client) =
        Except.ok (dictSet (info.getD []) "Nodes" (PyVal.list (nodes.map PyVal.dict)))) ∧
    (∀ (client : DucoClient) (info : Option (List (String × PyVal)))
        (nresp : NodesResponse),
      client.get_info = Except.ok info →
      client.get_nodes = Except.ok nresp →
      (∀ nodes, nresp ≠ NodesResponse.withNodes nodes) →
      _fetch_data (some client) =
        Except.ok (dictSet (info.getD []) "Nodes" (PyVal.list []))) ∧
    (∀ (duco_client : Option DucoClient) (d : List (String × PyVal)),
      _fetch_data duco_client = Except.ok d →
      ∃ l : List PyVal, dictGetOpt d "Nodes" = some (PyVal.list l)) := by
  refine ⟨?_, ?_, ?_⟩
  · intro client info nodes hinfo hnodes
    simp only [_fetch_data]
    rw [hinfo, hnodes]
    simp only [Except.bind]
    cases info <;> rfl
  · intro client info nresp hinfo hnodes hnot
    simp only [_fetch_data]
    rw [hinfo, hnodes]
    simp only [Except.bind]
    cases nresp with
    | falsy => cases info <;> rfl
    | missingNodesField => cases info <;> rfl
    | withNodes nodes => exact absurd rfl (hnot nodes)
  · intro duco_client d h
    cases duco_client with
    | none => exact absurd h (by simp [_fetch_data])
    | some client =>
      simp only [_fetch_data] at h
      cases hinfo : client.get_info with
      | error e => rw [hinfo] at h; simp [Except.bind] at h
      | ok info =>
        rw [hinfo] at h
        simp only [Except.bind] at h
        cases hnodes : client.get_nodes with
        | error e => rw [hnodes] at h; simp [Except.bind] at h
        | ok nresp =>
          rw [hnodes] at h
          simp only [Except.bind] at h
          cases nresp with
          | falsy =>
            injection h with hd
            exact ⟨[], hd ▸ dictGetOpt_dictSet _ "Nodes" _⟩
          | missingNodesField =>
            injection h with hd
            exact ⟨[], hd ▸ dictGetOpt_dictSet _ "Nodes" _⟩
          | withNodes nodes =>
            injection h with hd
            exact ⟨nodes.map PyVal.dict, hd ▸ dictGetOpt_dictSet _ "Nodes" _⟩

/-- C5 witness: `sampleClient` produces its `/info` dict extended with
the `Nodes` list. -/
theorem fetch_data_merges_witness :
    sampleClient.get_info = Except.ok (some [("General", PyVal.dict [])]) ∧
    sampleClient.get_nodes =
      Except.ok (NodesResponse.withNodes [[("Node", PyVal.num 1)]]) ∧
    _fetch_data (some sampleClient) =
      Except.ok [("General", PyVal.dict []),
        ("Nodes", PyVal.list [PyVal.dict [("Node", PyVal.num 1)]])] :=
  ⟨rfl, rfl, fetch_data_merges.1 sampleClient (some [("General", PyVal.dict [])])
    [[("Node", PyVal.num 1)]] rfl rfl⟩

/-- C6: error surfacing is a single catch-and-surface.  When the one
fetch attempt raises `e`, `_async_update_data` raises `UpdateFailed`
with the formatted message wrapping `e`; when it succeeds the data is
returned as is; the outcome depends only on the first attempt (no
retry ever consults a later one); a success outcome carries exactly
the single fetch's mapping (nothing incomplete is ever returned on
failure); and an uninitialized client is one instance of the failure
path. -/
theorem async_update_data_single_catch :
    (∀ (attempts : ℕ → Except String (List (String × PyVal))) (e : String),
      attempts 0 = Except.error e →
      _async_update_data attempts =
        UpdateOutcome.updateFailed ("Failed to fetch data from Ducobox API: " ++ e) e) ∧
    (∀ (attempts : ℕ → Except String (List (String × PyVal)))
        (d : List (String × PyVal)),
      attempts 0 = Except.ok d →
      _async_update_data attempts = UpdateOutcome.success d) ∧
    (∀ a1 a2 : ℕ → Except String (List (String × PyVal)),
      a1 0 = a2 0 → _async_update_data a1 = _async_update_data a2) ∧
    (∀ (attempts : ℕ → Except String (List (String × PyVal)))
        (d : List (String × PyVal)),
      _async_update_data attempts = UpdateOutcome.success d →
      attempts 0 = Except.ok d) ∧
    _async_update_data (fun _ => _fetch_data Option.none) =
      UpdateOutcome.updateFailed
        ("Failed to fetch data from Ducobox API: " ++ "Duco client is not initialized")
        "Duco client is not initialized" := by
  refine ⟨?_, ?_, ?_, ?_, rfl⟩
  · intro a e h; unfold _async_update_data; rw [h]
  · intro a d h; unfold _async_update_data; rw [h]
  · intro a1 a2 h; unfold _async_update_data; rw [h]
  · intro a d h
    unfold _async_update_data at h
    cases ha : a 0 with
    | ok x =>
      rw [ha] at h
      injection h with h2
      rw [h2]
    | error e => rw [ha] at h; exact absurd h (by simp)

/-- C6 witness: the failure conjunct at the uninitialized-client
attempt stream. -/
theorem async_update_data_single_catch_witness :
    (fun _ : ℕ => _fetch_data Option.none) 0 =
      Except.error "Duco client is not initialized" ∧
    _async_update_data (fun _ : ℕ => _fetch_data Option.none) =
      UpdateOutcome.updateFailed
        ("Failed to fetch data from Ducobox API: " ++ "Duco client is not initialized")
        "Duco client is not initialized" :=
  ⟨rfl, async_update_data_single_catch.1 (fun _ => _fetch_data Option.none)
    "Duco client is not initialized" rfl⟩

/-- C8: a box sensor entity reads its value through its stored
accessor: when `value_fn` applied to the coordinator's cached mapping
returns a value the property yields it, when it raises the property
yields `None`, and in both cases the read leaves the coordinator — in
particular its cached data — exactly as it was. -/
theorem sensor_native_value_spec :
    ∀ (e : DucoboxSensorEntity),
      (∀ v : PyVal,
        e.entity_description.value_fn e.coordinator.data = Except.ok v →
        e.native_value = (v, e.coordinator)) ∧
      (∀ err : String,
        e.entity_description.value_fn e.coordinator.data = Except.error err →
        e.native_value = (PyVal.none, e.coordinator)) ∧
      e.native_value.2 = e.coordinator := by
  intro e
  refine ⟨?_, ?_, rfl⟩
  · intro v h
    unfold DucoboxSensorEntity.native_value exceptToNone
    rw [h]
  · intro err h
    unfold DucoboxSensorEntity.native_value exceptToNone
    rw [h]

/-- C8 witness: the `TempOda` accessor over `sampleBoxEntity`'s cache
returns 215 tenths of a degree, i.e. 21.5 °C, and the read leaves the
coordinator unchanged. -/
theorem sensor_native_value_spec_witness :
    sampleBoxEntity.entity_description.value_fn sampleBoxEntity.coordinator.data =
      Except.ok (PyVal.num (215 / 10)) ∧
    sampleBoxEntity.native_value = (PyVal.num (215 / 10), sampleBoxEntity.coordinator) :=
  ⟨rfl, (sensor_native_value_spec sampleBoxEntity).1 (PyVal.num (215 / 10)) rfl⟩

theorem nodeLoop_map_dict (value_fn : PyVal → Except String PyVal) (nid : PyVal)
    (nodes : List (List (String × PyVal))) :
    nodeLoop value_fn nid (nodes.map PyVal.dict) =
      Except.ok
        (match nodes.find? (fun nd => PyVal.beq (dictGet nd "Node") nid) with
          | some nd => exceptToNone (value_fn (PyVal.dict nd))
          | Option.none => PyVal.none) := by
  induction nodes with
  | nil => rfl
  | cons nd rest ih =>
    rw [List.map_cons]
    by_cases h : PyVal.beq (dictGet nd "Node") nid = true
    · simp [nodeLoop, List.find?, h]
    · have hf : PyVal.beq (dictGet nd "Node") nid = false := by simpa using h
      simp only [nodeLoop, List.find?, hf]
      simp only [Bool.false_eq_true, if_false]
      exact ih

/-- C9: a node sensor entity's `native_value` over a cached dict `d`:
when `d` binds `Nodes` to a list of node dicts, it is the stored
accessor applied to the first node whose `Node` field `==` the stored
node id (with `None` replacing a raising application), `None` when no
node matches; when `d` has no `Nodes` key at all the default `[]`
makes it `None`. -/
theorem node_native_value_spec :
    ∀ (desc : DucoboxNodeSensorEntityDescription) (nid : PyVal)
      (d : List (String × PyVal)) (nodes : List (List (String × PyVal))),
      (dictGetOpt d "Nodes" = some (PyVal.list (nodes.map PyVal.dict)) →
        DucoboxNodeSensorEntity.native_value
            { entity_description := desc
              coordinator := { data := PyVal.dict d }
              _node_id := nid } =
          Except.ok
            (match nodes.find? (fun nd => PyVal.beq (dictGet nd "Node") nid) with
              | some nd => exceptToNone (desc.value_fn (PyVal.dict nd))
              | Option.none => PyVal.none)) ∧
      (dictGetOpt d "Nodes" = Option.none →
        DucoboxNodeSensorEntity.native_value
            { entity_description := desc
              coordinator := { data := PyVal.dict d }
              _node_id := nid } = Except.ok PyVal.none) := by
  intro desc nid d nodes
  have hbody : DucoboxNodeSensorEntity.native_value
      { entity_description := desc
        coordinator := { data := PyVal.dict d }
        _node_id := nid } =
      (match (dictGetOpt d "Nodes").getD (PyVal.list []) with
        | PyVal.list ns => nodeLoop desc.value_fn nid ns
        | _ => Except.error "TypeError: object is not iterable") := rfl
  constructor
  · intro h
    rw [hbody, h]
    exact nodeLoop_map_dict desc.value_fn nid nodes
  · intro h
    rw [hbody, h]
    rfl

/-- C9 witness: over `sampleData` (one node, id 1, mode AUTO), the
`BOX` `Mode` sensor wired to node id 1 reads the string AUTO. -/
theorem node_native_value_spec_witness :
    dictGetOpt sampleData "Nodes" = some (PyVal.list (sampleNodes.map PyVal.dict)) ∧
    DucoboxNodeSensorEntity.native_value
        { entity_description := (NODE_SENSORS_get "BOX").getD 0 defaultNodeSensorDescription
          coordinator := { data := PyVal.dict sampleData }
          _node_id := PyVal.num 1 } = Except.ok (PyVal.str "AUTO") := by
  refine ⟨rfl, ?_⟩
  have h := (node_native_value_spec
      ((NODE_SENSORS_get "BOX").getD 0 defaultNodeSensorDescription)
      (PyVal.num 1) sampleData sampleNodes).1 rfl
  exact h.trans (by rfl)
